import Mathlib

/-!
Verification of the AssemblyAI Go client (client/assemblyai/client.go).

The HTTP transport and the JSON syntax parser are external collaborators:
a response arrives as a status code plus a raw body, together with the
outcome of parsing that body with encoding/json (supplied by the
environment, since the parser is library code, not code of this
repository).  Everything the repository itself does — status
classification, error construction, struct field mapping, the submit
checks and the poll loop — is embedded as executable Lean definitions
below, following the Go source line by line.
-/

namespace AssemblyAI

/-- A Go (value, error) pair as returned by every operation of the client:
the first component is the string result, the second is `none` for a nil
error and `some msg` for a non-nil error with message `msg`. -/
abbrev GoResult := String × Option String

/-! ### isValidStatus -/

/-- Matching of the Go regular expression `^2..` against a string, as used
by `regexp.MatchString`: anchored at the start, the string must begin with
the byte 2 followed by two characters, each of which may be anything but a
newline (`.` does not match newline). -/
def matchesOkStatusRegex (s : String) : Bool :=
  match s.data with
  | c0 :: c1 :: c2 :: _ => c0 == '2' && c1 != '\n' && c2 != '\n'
  | _ => false

/-- Embeds `isValidStatus` from client.go: renders the status code in decimal with
`strconv.Itoa` (Lean `toString` on `Int` agrees with Itoa, including the
leading minus sign for negatives) and matches it against `^2..`. -/
def isValidStatus (statusCode : Int) : Bool :=
  matchesOkStatusRegex (toString statusCode)

example : isValidStatus 200 = true := by decide
example : isValidStatus 299 = true := by decide
example : isValidStatus 300 = false := by decide
example : isValidStatus 199 = false := by decide
example : isValidStatus 2000 = true := by decide
example : isValidStatus (-250) = false := by decide

/-! ### fmt.Errorf with the body as the format string

`getData` builds the non-2xx error with `fmt.Errorf(string(body))`: the
body is used as a printf FORMAT STRING with no operands.  We model the
Go fmt behaviour for a format string and zero operands: ordinary
characters are copied; `%` starts a directive — flags (`+ - # 0` and
space), a decimal width, and an optional `.`-precision are skipped, then
`%%` emits a single `%`, a trailing `%` emits `%!(NOVERB)`, and any verb
character with no operand left emits `%!v(MISSING)` for that verb.
(Format strings using `*` widths are not modelled; no body considered
here contains one.) -/

def isFmtFlag (c : Char) : Bool :=
  c == '+' || c == '-' || c == '#' || c == ' ' || c == '0'

/-- One fuel unit is spent per directive or literal character; the fuel is
initialised to the length of the format string, which suffices because
every step consumes at least one character. -/
def fmtNoArgsGo : Nat → List Char → List Char
  | 0, _ => []
  | _ + 1, [] => []
  | fuel + 1, '%' :: rest =>
    let rest1 := rest.dropWhile isFmtFlag
    let rest2 := rest1.dropWhile Char.isDigit
    let rest3 :=
      match rest2 with
      | '.' :: r => r.dropWhile Char.isDigit
      | r => r
    match rest3 with
    | [] => "%!(NOVERB)".data
    | '%' :: r => '%' :: fmtNoArgsGo fuel r
    | c :: r => "%!".data ++ c :: "(MISSING)".data ++ fmtNoArgsGo fuel r
  | fuel + 1, c :: rest => c :: fmtNoArgsGo fuel rest

/-- The message produced by `fmt.Errorf(s)` with no operands. -/
def fmtNoArgs (s : String) : String :=
  ⟨fmtNoArgsGo s.data.length s.data⟩

example : fmtNoArgs "plain body" = "plain body" := by decide
example : fmtNoArgs "%d" = "%!d(MISSING)" := by decide
example : fmtNoArgs "100%%" = "100%" := by decide
example : fmtNoArgs "bad%" = "bad%!(NOVERB)" := by decide

/-! ### time.Duration.String

The poll timeout message interpolates `pollSettings.timeout` with `%s`,
which calls `time.Duration.String()`.  The following is that algorithm:
durations under a second use ns/µs/ms with the fraction trimmed of
trailing zeros, larger durations use `h`/`m`/`s` with seconds carrying up
to nine fractional digits. -/

/-- Go `fmtFrac`: formats `prec` low-order digits of `v` as a fraction,
omitting trailing zeros and the dot when the fraction is zero; returns the
fraction text and `v` shifted right by `prec` digits.  Digits are
processed least significant first, exactly as in the Go loop. -/
def fmtFracGo : Nat → Nat → Bool → List Char → List Char × Nat
  | 0, v, print, acc => ((if print then '.' :: acc else acc), v)
  | p + 1, v, print, acc =>
    let digit := v % 10
    let print2 := print || decide (digit ≠ 0)
    let acc2 := if print2 then Char.ofNat (48 + digit) :: acc else acc
    fmtFracGo p (v / 10) print2 acc2

def fmtFrac (v : Nat) (prec : Nat) : String × Nat :=
  let r := fmtFracGo prec v false []
  (⟨r.1⟩, r.2)

/-- Go `time.Duration.String()` for a duration of `d` nanoseconds. -/
def durationString (d : Int) : String :=
  let u : Nat := d.natAbs
  let core :=
    if u < 1000000000 then
      if u = 0 then "0s"
      else if u < 1000 then toString u ++ "ns"
      else if u < 1000000 then
        let r := fmtFrac u 3
        toString r.2 ++ r.1 ++ "µs"
      else
        let r := fmtFrac u 6
        toString r.2 ++ r.1 ++ "ms"
    else
      let r := fmtFrac u 9
      let secPart := toString (r.2 % 60) ++ r.1 ++ "s"
      let v2 := r.2 / 60
      if v2 = 0 then secPart
      else
        let minPart := toString (v2 % 60) ++ "m" ++ secPart
        let v3 := v2 / 60
        if v3 = 0 then minPart else toString v3 ++ "h" ++ minPart
  if d < 0 then "-" ++ core else core

example : durationString 0 = "0s" := by decide
example : durationString 1000000 = "1ms" := by decide
example : durationString 1500 = "1.5µs" := by decide
example : durationString (5 * 1000000000) = "5s" := by decide
example : durationString (60 * 1000000000) = "1m0s" := by decide
example : durationString (3661 * 1000000000) = "1h1m1s" := by decide

/-! ### JSON values and encoding/json struct mapping -/

/-- A parsed JSON document.  Numbers are kept as integers, which covers
every body this development considers. -/
inductive Json where
  | null
  | bool (b : Bool)
  | num (n : Int)
  | str (s : String)
  | arr (elems : List Json)
  | obj (fields : List (String × Json))

deriving instance DecidableEq for Except

/-- ASCII lower-casing of a character. -/
def asciiLower (c : Char) : Char :=
  if 65 ≤ c.toNat ∧ c.toNat ≤ 90 then Char.ofNat (c.toNat + 32) else c

/-- ASCII lower-casing of a string, used to model the case-insensitive
field matching of encoding/json (which uses an equal-fold comparison; the
keys in play here are ASCII). -/
def lowerKey (s : String) : String :=
  ⟨s.data.map asciiLower⟩

/-- The kind word used in encoding/json error messages. -/
def Json.kindName : Json → String
  | .null => "null"
  | .bool _ => "bool"
  | .num _ => "number"
  | .str _ => "string"
  | .arr _ => "array"
  | .obj _ => "object"

/-- The UnmarshalTypeError message for a JSON value of the wrong kind
arriving in a string struct field. -/
def typeErrMsg (v : Json) (field : String) : String :=
  "json: cannot unmarshal " ++ v.kindName ++ " into Go struct field " ++
    field ++ " of type string"

/-- The UnmarshalTypeError message for a non-object document decoded into
a struct value. -/
def topTypeErrMsg (v : Json) (ty : String) : String :=
  "json: cannot unmarshal " ++ v.kindName ++ " into Go value of type " ++ ty

/-- Embeds `UploadLocalFileResponse` from client.go: a single string field with
json tag `upload_url`. -/
structure UploadLocalFileResponse where
  uploadUrl : String
deriving DecidableEq

/-- The Go zero value of `UploadLocalFileResponse`. -/
def uploadZero : UploadLocalFileResponse := ⟨""⟩

/-- Decoding of one object entry into `UploadLocalFileResponse`, as
encoding/json does it: keys are matched against the json tag
case-insensitively (modelled with `toLower`; the keys in play are ASCII),
a JSON null leaves the field untouched, a string sets it, any other kind
records a type error (the first such error is kept, and decoding
continues, so a later duplicate key still overwrites the field). -/
def setUploadField (acc : UploadLocalFileResponse × Option String)
    (kv : String × Json) : UploadLocalFileResponse × Option String :=
  if lowerKey kv.1 = "upload_url" then
    match kv.2 with
    | .null => acc
    | .str s => ({ acc.1 with uploadUrl := s }, acc.2)
    | v => (acc.1, acc.2 <|> some (typeErrMsg v "UploadLocalFileResponse.upload_url"))
  else acc

/-- Models `json.Unmarshal` into `UploadLocalFileResponse`: a JSON null is a
no-op on the zero value, an object is folded field by field, and any
other document kind is a type error. -/
def unmarshalUpload (j : Json) : Except String UploadLocalFileResponse :=
  match j with
  | .null => .ok uploadZero
  | .obj fields =>
    let r := fields.foldl setUploadField (uploadZero, none)
    match r.2 with
    | some e => .error e
    | none => .ok r.1
  | v => .error (topTypeErrMsg v "UploadLocalFileResponse")

/-- Embeds `TranscriptResponse` from client.go: four string fields with json tags
`id`, `status`, `text`, `error`. -/
structure TranscriptResponse where
  id : String
  status : String
  text : String
  error : String
deriving DecidableEq

/-- The Go zero value of `TranscriptResponse`. -/
def transcriptZero : TranscriptResponse := ⟨"", "", "", ""⟩

/-- Decoding of one object entry into `TranscriptResponse`; same
encoding/json conventions as `setUploadField`. -/
def setTranscriptField (acc : TranscriptResponse × Option String)
    (kv : String × Json) : TranscriptResponse × Option String :=
  let key := lowerKey kv.1
  if key = "id" then
    match kv.2 with
    | .null => acc
    | .str s => ({ acc.1 with id := s }, acc.2)
    | v => (acc.1, acc.2 <|> some (typeErrMsg v "TranscriptResponse.id"))
  else if key = "status" then
    match kv.2 with
    | .null => acc
    | .str s => ({ acc.1 with status := s }, acc.2)
    | v => (acc.1, acc.2 <|> some (typeErrMsg v "TranscriptResponse.status"))
  else if key = "text" then
    match kv.2 with
    | .null => acc
    | .str s => ({ acc.1 with text := s }, acc.2)
    | v => (acc.1, acc.2 <|> some (typeErrMsg v "TranscriptResponse.text"))
  else if key = "error" then
    match kv.2 with
    | .null => acc
    | .str s => ({ acc.1 with error := s }, acc.2)
    | v => (acc.1, acc.2 <|> some (typeErrMsg v "TranscriptResponse.error"))
  else acc

/-- Models `json.Unmarshal` into `TranscriptResponse`. -/
def unmarshalTranscript (j : Json) : Except String TranscriptResponse :=
  match j with
  | .null => .ok transcriptZero
  | .obj fields =>
    let r := fields.foldl setTranscriptField (transcriptZero, none)
    match r.2 with
    | some e => .error e
    | none => .ok r.1
  | v => .error (topTypeErrMsg v "TranscriptResponse")

/-! ### HTTP responses and getData -/

/-- A fully read response body: the raw text, together with the outcome of
parsing it with encoding/json.  The parse outcome is environment data
because the JSON syntax parser is library code; on parse failure it
carries the library error message. -/
structure RawBody where
  text : String
  json : Except String Json

/-- An HTTP response as `getData` consumes it: the status code and the
outcome of `io.ReadAll` on the body (`error` models a body read
failure). -/
structure HttpResponse where
  statusCode : Int
  body : Except String RawBody

/-- Embeds `getBody` from client.go: read the whole body, propagating a read
error. -/
def getBody (response : HttpResponse) : Except String RawBody :=
  response.body

/-- Embeds `getData[T]` from client.go: read the body; on a status code outside
2xx fail with `fmt.Errorf(string(body))` — the body text run through the
no-operand fmt interpreter; otherwise unmarshal the body into the target
shape. -/
def getData {T : Type} (unmarshal : Json → Except String T)
    (response : HttpResponse) : Except String T :=
  match getBody response with
  | .error e => .error e
  | .ok body =>
    if !isValidStatus response.statusCode then
      .error (fmtNoArgs body.text)
    else
      match body.json with
      | .error e => .error e
      | .ok j => unmarshal j

/-! ### UploadLocalFile and Transcript -/

/-- The environment of a single-request operation: the outcome of
`http.NewRequest` (`some e` models a request construction failure) and
the outcome of `client.Do` (`error` models a transport failure). -/
structure RequestEnv where
  newRequestErr : Option String
  doResult : Except String HttpResponse

/-- Embeds `UploadLocalFile` from client.go: build the request, send it, decode
an `UploadLocalFileResponse`, and return its upload url.  Every failure
returns the empty string beside the error. -/
def UploadLocalFile (env : RequestEnv) : GoResult :=
  match env.newRequestErr with
  | some e => ("", some e)
  | none =>
    match env.doResult with
    | .error e => ("", some e)
    | .ok resp =>
      match getData unmarshalUpload resp with
      | .error e => ("", some e)
      | .ok data => (data.uploadUrl, none)

/-- Embeds `Transcript` from client.go: marshal the dto (marshalling a struct of
one string field cannot fail, so that branch collapses), build and send
the request, decode a `TranscriptResponse`, then check the id before the
status: an empty id is the protocol error, a status of error surfaces the
service message, and otherwise the id is returned. -/
def Transcript (env : RequestEnv) : GoResult :=
  match env.newRequestErr with
  | some e => ("", some e)
  | none =>
    match env.doResult with
    | .error e => ("", some e)
    | .ok resp =>
      match getData unmarshalTranscript resp with
      | .error e => ("", some e)
      | .ok data =>
        if data.id = "" then ("", some "response did not include an id")
        else if data.status = "error" then ("", some data.error)
        else (data.id, none)

/-! ### PollTranscript -/

/-- Embeds `PollSettings` from client.go: poll frequency and overall timeout,
both `time.Duration` values, i.e. signed nanosecond counts. -/
structure PollSettings where
  frequency : Int
  timeout : Int

/-- Go `time.Second` in nanoseconds. -/
def second : Int := 1000000000

/-- Go `time.Minute` in nanoseconds. -/
def minute : Int := 60 * second

/-- The `TranscriptionStatus` string type and its three named values from
client.go. -/
abbrev TranscriptionStatus := String

def Err : TranscriptionStatus := "error"

def Queued : TranscriptionStatus := "queued"

def Completed : TranscriptionStatus := "completed"

/-- What one execution of the `switch TranscriptionStatus(data.Status)`
body does with the loop. -/
inductive StepOut where
  | retErr (msg : String)
  | retText (text : String)
  | sleepLoop
  | loop
deriving DecidableEq

/-- The switch from the poll loop: `Err` returns the service error
message, `Completed` returns the text, `Queued` sleeps and loops, and —
because the switch has no default case — every other status value falls
through and loops again WITHOUT sleeping. -/
def pollSwitch (data : TranscriptResponse) : StepOut :=
  if data.status = Err then .retErr data.error
  else if data.status = Completed then .retText data.text
  else if data.status = Queued then .sleepLoop
  else .loop

/-- The environment of a `PollTranscript` call: the `http.NewRequest`
outcome, the outcome of the i-th `client.Do` (the same request is re-sent
each iteration, but the remote answer may differ), and the wall-clock
nanoseconds that elapse across the i-th request round trip. -/
structure PollEnv where
  newRequestErr : Option String
  attempts : Nat → Except String HttpResponse
  reqDur : Nat → Nat

/-- Clock advance of `time.Sleep(frequency)`: a non-positive duration
returns immediately, otherwise the call blocks for the duration. -/
def sleepAdvance (frequency : Int) : Int := max frequency 0

/-- The timeout error message,
`fmt.Errorf("timeout, transcription not finished in %s", pollSettings.timeout)`,
with `%s` rendering the duration through `time.Duration.String()`. -/
def timeoutMsg (timeout : Int) : String :=
  "timeout, transcription not finished in " ++ durationString timeout

/-- The `for time.Now().Before(timeoutTime)` loop of `PollTranscript`,
with an explicit clock (`now`, in nanoseconds) and a counter of the
`time.Sleep` calls performed.  `deadline` is `start + timeout` as computed
before the loop.  The Go loop has no iteration bound — it terminates only
through the clock — so the embedding carries fuel and returns `none` when
the fuel runs out before the call returns. -/
def pollLoop (env : PollEnv) (frequency timeout deadline : Int) :
    Nat → Nat → Int → Nat → Option (GoResult × Nat)
  | 0, _, _, _ => none
  | fuel + 1, i, now, sleeps =>
    if now < deadline then
      match env.attempts i with
      | .error e => some (("", some e), sleeps)
      | .ok resp =>
        match getData unmarshalTranscript resp with
        | .error e => some (("", some e), sleeps)
        | .ok data =>
          match pollSwitch data with
          | .retErr m => some (("", some m), sleeps)
          | .retText t => some ((t, none), sleeps)
          | .sleepLoop =>
            pollLoop env frequency timeout deadline fuel (i + 1)
              (now + env.reqDur i + sleepAdvance frequency) (sleeps + 1)
          | .loop =>
            pollLoop env frequency timeout deadline fuel (i + 1)
              (now + env.reqDur i) sleeps
    else
      some (("", some (timeoutMsg timeout)), sleeps)

/-- Embeds `PollTranscript` from client.go: a nil `pollSettings` defaults to a
5 second frequency and a 1 minute timeout; a request construction failure
returns at once; otherwise the loop runs from the wall-clock `start` with
deadline `start + timeout`.  The result carries the `(text, error)` pair
and the number of sleeps performed. -/
def PollTranscript (env : PollEnv) (pollSettings : Option PollSettings)
    (start : Int) (fuel : Nat) : Option (GoResult × Nat) :=
  let ps := pollSettings.getD ⟨5 * second, minute⟩
  match env.newRequestErr with
  | some e => some (("", some e), 0)
  | none => pollLoop env ps.frequency ps.timeout (start + ps.timeout) fuel 0 start 0

/-- The decoded outcome of the i-th poll iteration: transport error, or
the `getData` outcome on the i-th response. -/
def attemptData (env : PollEnv) (i : Nat) : Except String TranscriptResponse :=
  match env.attempts i with
  | .error e => .error e
  | .ok resp => getData unmarshalTranscript resp

/-- Forget the sleep counter of a poll outcome, keeping the Go-visible
`(text, error)` pair. -/
def pollValue (r : Option (GoResult × Nat)) : Option GoResult :=
  r.map Prod.fst

/-! ### Concrete environments used by the witnesses and counterexamples -/

/-- A 2xx poll response with status queued. -/
def queuedResp : HttpResponse :=
  ⟨200, .ok ⟨"\x7b\"status\": \"queued\"\x7d", .ok (.obj [("status", .str "queued")])⟩⟩

/-- A 2xx poll response with status completed and text T. -/
def completedResp : HttpResponse :=
  ⟨200, .ok ⟨"\x7b\"status\": \"completed\", \"text\": \"T\"\x7d",
    .ok (.obj [("status", .str "completed"), ("text", .str "T")])⟩⟩

/-- A 2xx poll response with the non-terminal, non-queued status
processing (a value the AssemblyAI service does report). -/
def processingResp : HttpResponse :=
  ⟨200, .ok ⟨"\x7b\"status\": \"processing\"\x7d", .ok (.obj [("status", .str "processing")])⟩⟩

/-- The response sequence [queued, queued, completed(text=T)], with no
wall-clock advance across requests. -/
def envSpecRun : PollEnv :=
  ⟨none, fun i => .ok (if i = 0 then queuedResp else if i = 1 then queuedResp else completedResp),
    fun _ => 0⟩

/-- The response sequence [processing, completed(text=T)], with no
wall-clock advance across requests. -/
def envProcessingRun : PollEnv :=
  ⟨none, fun i => .ok (if i = 0 then processingResp else completedResp), fun _ => 0⟩

/-- Every request answers 500 with body boom. -/
def badStatusEnv : PollEnv :=
  ⟨none, fun _ => .ok ⟨500, .ok ⟨"boom", .ok .null⟩⟩, fun _ => 0⟩

/-- Every request answers queued, and each round trip takes 1ns. -/
def alwaysQueuedEnv : PollEnv :=
  ⟨none, fun _ => .ok queuedResp, fun _ => 1⟩

/-- A non-2xx response whose body is the two characters percent-d; the
parse outcome is irrelevant because the non-2xx branch returns before the
body is parsed. -/
def percentBodyResp : HttpResponse :=
  ⟨500, .ok ⟨"%d", .error "invalid character looking for beginning of value"⟩⟩

/-- A 2xx submit response with id abc and status queued. -/
def submitOkResp : HttpResponse :=
  ⟨200, .ok ⟨"\x7b\"id\": \"abc\", \"status\": \"queued\"\x7d",
    .ok (.obj [("id", .str "abc"), ("status", .str "queued")])⟩⟩

def submitOkEnv : RequestEnv := ⟨none, .ok submitOkResp⟩

/-- A 2xx submit response with no id, status error and a service error
message boom. -/
def submitNoIdResp : HttpResponse :=
  ⟨200, .ok ⟨"\x7b\"status\": \"error\", \"error\": \"boom\"\x7d",
    .ok (.obj [("status", .str "error"), ("error", .str "boom")])⟩⟩

def submitNoIdEnv : RequestEnv := ⟨none, .ok submitNoIdResp⟩

/-- A 2xx upload response whose body is the empty JSON object. -/
def emptyObjResp : HttpResponse := ⟨200, .ok ⟨"\x7b\x7d", .ok (.obj [])⟩⟩

def emptyObjEnv : RequestEnv := ⟨none, .ok emptyObjResp⟩

/-- A transport failure on the upload request. -/
def failUploadEnv : RequestEnv := ⟨none, .error "connection refused"⟩

end AssemblyAI


namespace AssemblyAI

/-! ### Helper lemmas -/

/-- Folding object entries none of which matches the upload url tag
leaves the decoding state unchanged. -/
lemma foldl_setUploadField_skip (fields : List (String × Json))
    (acc : UploadLocalFileResponse × Option String)
    (h : ∀ kv ∈ fields, lowerKey kv.1 ≠ "upload_url") :
    fields.foldl setUploadField acc = acc := by
  induction fields generalizing acc with
  | nil => rfl
  | cons kv rest ih =>
    have h1 : lowerKey kv.1 ≠ "upload_url" := h kv (List.mem_cons_self _ _)
    have hstep : setUploadField acc kv = acc := by
      simp [setUploadField, h1]
    rw [List.foldl_cons, hstep]
    exact ih acc fun kv2 hm => h kv2 (List.mem_cons_of_mem _ hm)

/-- One unfolding of the poll loop body at a decoded response. -/
lemma pollLoop_step (env : PollEnv) (frequency timeout deadline : Int)
    (fuel i : Nat) (now : Int) (sleeps : Nat) (resp : HttpResponse)
    (data : TranscriptResponse)
    (hnow : now < deadline)
    (hatt : env.attempts i = .ok resp)
    (hdata : getData unmarshalTranscript resp = .ok data) :
    pollLoop env frequency timeout deadline (fuel + 1) i now sleeps =
      match pollSwitch data with
      | .retErr m => some (("", some m), sleeps)
      | .retText t => some ((t, none), sleeps)
      | .sleepLoop =>
        pollLoop env frequency timeout deadline fuel (i + 1)
          (now + env.reqDur i + sleepAdvance frequency) (sleeps + 1)
      | .loop =>
        pollLoop env frequency timeout deadline fuel (i + 1)
          (now + env.reqDur i) sleeps := by
  rw [pollLoop, if_pos hnow, hatt]
  simp only [hdata]

/-- Every outcome of the poll loop that carries a non-nil error carries
the empty string beside it. -/
lemma pollLoop_no_partial (env : PollEnv) (frequency timeout deadline : Int) :
    ∀ (fuel i : Nat) (now : Int) (sleeps : Nat) (r : GoResult) (s : Nat),
      pollLoop env frequency timeout deadline fuel i now sleeps = some (r, s) →
      r.2.isSome = true → r.1 = "" := by
  intro fuel
  induction fuel with
  | zero =>
    intro i now sleeps r s h
    simp [pollLoop] at h
  | succ f ih =>
    intro i now sleeps r s h hsome
    rw [pollLoop] at h
    by_cases hnow : now < deadline
    · rw [if_pos hnow] at h
      cases hatt : env.attempts i with
      | error e =>
        simp only [hatt, Option.some.injEq, Prod.mk.injEq] at h
        rw [← h.1]
      | ok resp =>
        simp only [hatt] at h
        cases hgd : getData unmarshalTranscript resp with
        | error e =>
          simp only [hgd, Option.some.injEq, Prod.mk.injEq] at h
          rw [← h.1]
        | ok data =>
          simp only [hgd] at h
          cases hsw : pollSwitch data with
          | retErr m =>
            simp only [hsw, Option.some.injEq, Prod.mk.injEq] at h
            rw [← h.1]
          | retText t =>
            simp only [hsw, Option.some.injEq, Prod.mk.injEq] at h
            rw [← h.1] at hsome
            simp at hsome
          | sleepLoop =>
            simp only [hsw] at h
            exact ih _ _ _ _ _ h hsome
          | loop =>
            simp only [hsw] at h
            exact ih _ _ _ _ _ h hsome
    · rw [if_neg hnow] at h
      simp only [Option.some.injEq, Prod.mk.injEq] at h
      rw [← h.1]

/-- If every iteration decodes to a non-terminal status and every request
consumes at least one nanosecond of wall-clock time, the loop reaches the
deadline and returns the timeout error, provided the fuel covers the
remaining nanosecond budget. -/
lemma pollLoop_timeout_of_nonterminal (env : PollEnv)
    (frequency timeout deadline : Int)
    (hnt : ∀ k, ∃ data, attemptData env k = .ok data ∧
      (pollSwitch data = .sleepLoop ∨ pollSwitch data = .loop))
    (hdur : ∀ k, 1 ≤ env.reqDur k) :
    ∀ (fuel i : Nat) (now : Int) (sleeps : Nat),
      deadline - now ≤ (fuel : Int) →
      pollValue (pollLoop env frequency timeout deadline (fuel + 1) i now sleeps) =
        some ("", some (timeoutMsg timeout)) := by
  intro fuel
  induction fuel with
  | zero =>
    intro i now sleeps hb
    have hnow : ¬ now < deadline := by omega
    rw [pollLoop, if_neg hnow]
    rfl
  | succ f ih =>
    intro i now sleeps hb
    by_cases hnow : now < deadline
    · obtain ⟨data, hdata, hsw⟩ := hnt i
      unfold attemptData at hdata
      cases hatt : env.attempts i with
      | error e =>
        simp only [hatt] at hdata
        exact absurd hdata (by simp)
      | ok resp =>
        simp only [hatt] at hdata
        rw [pollLoop_step env frequency timeout deadline (f + 1) i now sleeps resp data hnow hatt hdata]
        have hmax : (0 : Int) ≤ max frequency 0 := le_max_right frequency 0
        have hd1 : (1 : Int) ≤ (env.reqDur i : Int) := by exact_mod_cast hdur i
        cases hsw with
        | inl hq =>
          rw [hq]
          exact ih (i + 1) (now + env.reqDur i + sleepAdvance frequency) (sleeps + 1)
            (by unfold sleepAdvance; omega)
        | inr hl =>
          rw [hl]
          exact ih (i + 1) (now + env.reqDur i) sleeps (by omega)
    · rw [pollLoop, if_neg hnow]
      rfl

/-! ### Claim theorems -/

/-- Claim C1 (amended): the decoded status drives the poll iteration as a
state machine — status error terminates with no text and the service
error message; status completed terminates with the transcribed text;
status queued sleeps for the configured frequency and loops; and any
OTHER non-terminal status value loops again immediately WITHOUT sleeping
(the sleep counter is unchanged and the clock advances only by the
request duration). -/
theorem C1_poll_state_machine (env : PollEnv)
    (frequency timeout deadline : Int) (fuel i : Nat) (now : Int)
    (sleeps : Nat) (resp : HttpResponse) (data : TranscriptResponse)
    (hnow : now < deadline)
    (hatt : env.attempts i = .ok resp)
    (hdata : getData unmarshalTranscript resp = .ok data) :
    (data.status = "error" →
      pollLoop env frequency timeout deadline (fuel + 1) i now sleeps =
        some (("", some data.error), sleeps))
    ∧ (data.status = "completed" →
      pollLoop env frequency timeout deadline (fuel + 1) i now sleeps =
        some ((data.text, none), sleeps))
    ∧ (data.status = "queued" →
      pollLoop env frequency timeout deadline (fuel + 1) i now sleeps =
        pollLoop env frequency timeout deadline fuel (i + 1)
          (now + env.reqDur i + sleepAdvance frequency) (sleeps + 1))
    ∧ (data.status ≠ "error" → data.status ≠ "completed" →
        data.status ≠ "queued" →
      pollLoop env frequency timeout deadline (fuel + 1) i now sleeps =
        pollLoop env frequency timeout deadline fuel (i + 1)
          (now + env.reqDur i) sleeps) := by
  rw [pollLoop_step env frequency timeout deadline fuel i now sleeps resp data hnow hatt hdata]
  refine ⟨fun h => ?_, fun h => ?_, fun h => ?_, fun h1 h2 h3 => ?_⟩
  · simp [pollSwitch, Err, Completed, Queued, h]
  · simp [pollSwitch, Err, Completed, Queued, h]
  · simp [pollSwitch, Err, Completed, Queued, h]
  · simp [pollSwitch, Err, Completed, Queued, h1, h2, h3]

/-- Claim C1 counterexample: on the response sequence
[processing, completed(text=T)] with a 5 second frequency, the run
returns T after ZERO sleeps, although iteration 0 decoded the
non-terminal status processing — refuting the claim that a poll
iteration sleeps for the configured frequency on every non-terminal
status; the code sleeps only on the literal status queued. -/
theorem C1_counterexample :
    attemptData envProcessingRun 0 = .ok ⟨"", "processing", "", ""⟩ ∧
    PollTranscript envProcessingRun (some ⟨5 * second, minute⟩) 0 3 =
      some (("T", none), 0) := by
  exact ⟨rfl, by decide⟩

/-- Witness for C1: the amended theorem applied to a concrete queued
response — the queued branch recurses with the sleep counter increased
by one. -/
theorem C1_witness :
    pollLoop envSpecRun 0 minute minute 4 0 0 0 =
      pollLoop envSpecRun 0 minute minute 3 1
        (0 + envSpecRun.reqDur 0 + sleepAdvance 0) (0 + 1) :=
  (C1_poll_state_machine envSpecRun 0 minute minute 3 0 0 0 queuedResp
    ⟨"", "queued", "", ""⟩ (by decide) rfl rfl).2.2.1 rfl

/-- Claim C2 (code bug): the response decoder does NOT surface a non-2xx
body verbatim.  The body is passed to fmt.Errorf as the format string, so
a body containing percent directives is mangled: for a 500 response with
the two-character body percent-d, every operation reports the message
percent-bang-d-(MISSING), which differs from the body. -/
theorem C2_percent_body_mangled :
    getData unmarshalTranscript percentBodyResp = .error "%!d(MISSING)" ∧
    getData unmarshalUpload percentBodyResp = .error "%!d(MISSING)" ∧
    "%!d(MISSING)" ≠ "%d" := by
  exact ⟨by decide, by decide, by decide⟩

/-- Claim C3: on a submit response that decodes successfully (which
entails a 2xx status), Transcript returns the id exactly when the id is
non-empty and the status is not error; an empty id yields the protocol
error message, and a non-empty id with status error yields the
service-provided error message.  The two error checks happen in source
order: the id check first (see C9). -/
theorem C3_submit_contract (env : RequestEnv) (resp : HttpResponse)
    (data : TranscriptResponse)
    (hreq : env.newRequestErr = none)
    (hdo : env.doResult = .ok resp)
    (hdata : getData unmarshalTranscript resp = .ok data) :
    (Transcript env = (data.id, none) ↔ data.id ≠ "" ∧ data.status ≠ "error")
    ∧ (data.id = "" →
        Transcript env = ("", some "response did not include an id"))
    ∧ (data.id ≠ "" → data.status = "error" →
        Transcript env = ("", some data.error)) := by
  have hT : Transcript env =
      (if data.id = "" then ("", some "response did not include an id")
       else if data.status = "error" then ("", some data.error)
       else (data.id, none)) := by
    unfold Transcript
    rw [hreq, hdo]
    simp only [hdata]
  by_cases hid : data.id = ""
  · refine ⟨⟨fun hres => ?_, fun hcond => absurd hid hcond.1⟩,
      fun _ => by rw [hT, if_pos hid], fun hne _ => absurd hid hne⟩
    rw [hT, if_pos hid] at hres
    exact absurd (congrArg Prod.snd hres) (by simp)
  · by_cases hst : data.status = "error"
    · refine ⟨⟨fun hres => ?_, fun hcond => absurd hst hcond.2⟩,
        fun h => absurd h hid, fun _ _ => by rw [hT, if_neg hid, if_pos hst]⟩
      rw [hT, if_neg hid, if_pos hst] at hres
      exact absurd (congrArg Prod.snd hres) (by simp)
    · exact ⟨⟨fun _ => ⟨hid, hst⟩, fun _ => by rw [hT, if_neg hid, if_neg hst]⟩,
        fun h => absurd h hid, fun _ h => absurd h hst⟩

/-- Witness for C3: a 2xx submit response with id abc and status queued
returns (abc, nil). -/
theorem C3_witness : Transcript submitOkEnv = ("abc", none) :=
  (C3_submit_contract submitOkEnv submitOkResp ⟨"abc", "queued", "", ""⟩
    rfl rfl rfl).1.mpr (by decide)

/-- Claim C9: on a 2xx submit response whose decoded id is empty AND
whose decoded status is error, Transcript reports the protocol error
about the missing id, not the service error message: the id check runs
first. -/
theorem C9_empty_id_precedence (env : RequestEnv) (resp : HttpResponse)
    (data : TranscriptResponse)
    (hreq : env.newRequestErr = none)
    (hdo : env.doResult = .ok resp)
    (hdata : getData unmarshalTranscript resp = .ok data)
    (hid : data.id = "")
    (hst : data.status = "error") :
    Transcript env = ("", some "response did not include an id") := by
  unfold Transcript
  rw [hreq, hdo]
  simp only [hdata]
  rw [if_pos hid]

/-- Witness for C9: a 2xx submit body with status error, error message
boom and no id yields the missing-id error, not boom. -/
theorem C9_witness :
    Transcript submitNoIdEnv = ("", some "response did not include an id") :=
  C9_empty_id_precedence submitNoIdEnv submitNoIdResp ⟨"", "error", "", "boom"⟩
    rfl rfl rfl rfl rfl

/-- Claim C10: a 2xx upload response whose body is a JSON object with no
entry matching the upload url field (for example the empty object)
decodes without error, leaving the field at its zero value: the call
returns the empty string WITH a nil error. -/
theorem C10_upload_missing_field (env : RequestEnv) (resp : HttpResponse)
    (rb : RawBody) (fields : List (String × Json))
    (hreq : env.newRequestErr = none)
    (hdo : env.doResult = .ok resp)
    (hstatus : isValidStatus resp.statusCode = true)
    (hbody : resp.body = .ok rb)
    (hjson : rb.json = .ok (.obj fields))
    (hmiss : ∀ kv ∈ fields, lowerKey kv.1 ≠ "upload_url") :
    UploadLocalFile env = ("", none) := by
  have hgd : getData unmarshalUpload resp = .ok uploadZero := by
    unfold getData getBody
    simp only [hbody, hstatus, Bool.not_true, Bool.false_eq_true, if_false, hjson]
    simp only [unmarshalUpload]
    rw [foldl_setUploadField_skip fields ⟨uploadZero, none⟩ hmiss]
  unfold UploadLocalFile
  rw [hreq, hdo]
  simp only [hgd]
  rfl

/-- Witness for C10: a 200 response with body the empty JSON object
returns the empty string and no error. -/
theorem C10_witness : UploadLocalFile emptyObjEnv = ("", none) :=
  C10_upload_missing_field emptyObjEnv emptyObjResp ⟨"\x7b\x7d", .ok (.obj [])⟩
    [] rfl rfl rfl rfl rfl (by simp)

/-- Claim C4: if a reached poll iteration (the deadline has not yet
passed) gets a response on which the decoder fails — a non-2xx status or
a JSON decode failure — the whole call returns that error immediately
with an empty result: the loop result is some(error) for EVERY remaining
fuel, so no later attempt is ever consulted, regardless of the remaining
timeout budget. -/
theorem C4_poll_aborts_on_decode_error (env : PollEnv)
    (frequency timeout deadline : Int) (fuel i : Nat) (now : Int)
    (sleeps : Nat) (resp : HttpResponse) (e : String)
    (hnow : now < deadline)
    (hatt : env.attempts i = .ok resp)
    (hfail : getData unmarshalTranscript resp = .error e) :
    pollLoop env frequency timeout deadline (fuel + 1) i now sleeps =
      some (("", some e), sleeps) := by
  rw [pollLoop, if_pos hnow]
  simp only [hatt, hfail]

/-- Witness for C4: a 500 response with body boom aborts the first
iteration with the error boom (run through the decoder, the raw body),
although a full minute of budget remains. -/
theorem C4_witness :
    pollLoop badStatusEnv (5 * second) minute minute 1 0 0 0 =
      some (("", some "boom"), 0) :=
  C4_poll_aborts_on_decode_error badStatusEnv (5 * second) minute minute 0 0 0 0
    ⟨500, .ok ⟨"boom", .ok .null⟩⟩ "boom" (by decide) rfl rfl

/-- Claim C5: if every iteration decodes to a non-terminal status (so no
iteration terminates or fails) and wall-clock time advances by at least a
nanosecond per request, the loop runs until the clock passes
start + timeout and then returns the empty string with the timeout error,
whose message names the configured timeout duration rendered by
time.Duration.String. -/
theorem C5_timeout_error (env : PollEnv) (ps : PollSettings) (start : Int)
    (fuel : Nat)
    (hreq : env.newRequestErr = none)
    (hnt : ∀ k, ∃ data, attemptData env k = .ok data ∧
      (pollSwitch data = .sleepLoop ∨ pollSwitch data = .loop))
    (hdur : ∀ k, 1 ≤ env.reqDur k)
    (hfuel : ps.timeout ≤ (fuel : Int)) :
    pollValue (PollTranscript env (some ps) start (fuel + 1)) =
      some ("", some (timeoutMsg ps.timeout)) := by
  unfold PollTranscript
  rw [hreq]
  exact pollLoop_timeout_of_nonterminal env ps.frequency ps.timeout
    (start + ps.timeout) hnt hdur fuel 0 start 0 (by omega)

/-- Witness for C5: with every response queued, 1ns per request, zero
frequency and a 2ns timeout, the call returns the timeout error. -/
theorem C5_witness :
    pollValue (PollTranscript alwaysQueuedEnv (some ⟨0, 2⟩) 0 3) =
      some ("", some (timeoutMsg 2)) :=
  C5_timeout_error alwaysQueuedEnv ⟨0, 2⟩ 0 2 rfl
    (fun _ => ⟨⟨"", "queued", "", ""⟩, rfl, Or.inl rfl⟩)
    (fun _ => Nat.le_refl 1) (by decide)

/-- Claim C6: on the response sequence [queued, queued, completed(text=T)]
with frequency 0, PollTranscript returns T with a nil error after exactly
two sleeps. -/
theorem C6_spec_run :
    PollTranscript envSpecRun (some ⟨0, minute⟩) 0 4 = some (("T", none), 2) := by
  decide

/-- Claim C7 counterexample: the regex check and the interval check are
NOT equivalent over all integers — at 2000 the regex matches (the decimal
string starts with the digit 2 and has at least three characters) but
2000 does not lie in [200,300). -/
theorem C7_counterexample :
    isValidStatus 2000 = true ∧ ¬((200 : Int) ≤ 2000 ∧ (2000 : Int) < 300) := by
  decide

set_option maxRecDepth 4000 in
/-- All three-digit codes, checked by evaluation. -/
lemma threeDigit_statusEquiv : ∀ k : Nat, k < 900 →
    (isValidStatus (100 + (k : Int)) = true ↔
      (200 ≤ 100 + (k : Int) ∧ 100 + (k : Int) < 300)) := by
  decide

/-- Claim C7 (amended): over the three-digit codes 100..999 — which
include every HTTP status code the protocol defines — the regex check
accepts exactly the interval [200,300); outside that range the two
mechanisms disagree (see the counterexample at 2000). -/
theorem C7_status_equiv (n : Int) (h1 : 100 ≤ n) (h2 : n < 1000) :
    isValidStatus n = true ↔ (200 ≤ n ∧ n < 300) := by
  have hk : n = 100 + ((n - 100).toNat : Int) := by omega
  have hlt : (n - 100).toNat < 900 := by omega
  rw [hk]
  exact threeDigit_statusEquiv (n - 100).toNat hlt

/-- Witness for C7: the equivalence applied at 204. -/
theorem C7_witness :
    isValidStatus 204 = true ↔ ((200 : Int) ≤ 204 ∧ (204 : Int) < 300) :=
  C7_status_equiv 204 (by decide) (by decide)

/-- Claim C8: on every operation and every environment, a non-nil error
comes with the empty string as the result: no partial result is ever
returned beside an error. -/
theorem C8_no_partial_results :
    (∀ env : RequestEnv,
      (UploadLocalFile env).2.isSome = true → (UploadLocalFile env).1 = "")
    ∧ (∀ env : RequestEnv,
      (Transcript env).2.isSome = true → (Transcript env).1 = "")
    ∧ (∀ (env : PollEnv) (ps : Option PollSettings) (start : Int)
        (fuel : Nat) (r : GoResult) (s : Nat),
      PollTranscript env ps start fuel = some (r, s) →
      r.2.isSome = true → r.1 = "") := by
  refine ⟨fun env h => ?_, fun env h => ?_,
    fun env ps start fuel r s hp h => ?_⟩
  · obtain ⟨nr, dr⟩ := env
    unfold UploadLocalFile at h ⊢
    cases nr with
    | some e => rfl
    | none =>
      cases dr with
      | error e => rfl
      | ok resp =>
        cases hgd : getData unmarshalUpload resp with
        | error e => simp [hgd]
        | ok data => simp [hgd] at h
  · obtain ⟨nr, dr⟩ := env
    unfold Transcript at h ⊢
    cases nr with
    | some e => rfl
    | none =>
      cases dr with
      | error e => rfl
      | ok resp =>
        cases hgd : getData unmarshalTranscript resp with
        | error e => simp [hgd]
        | ok data =>
          by_cases hid : data.id = ""
          · simp [hgd, hid]
          · by_cases hst : data.status = "error"
            · simp [hgd, hid, hst]
            · simp [hgd, hid, hst] at h
  · cases hnr : env.newRequestErr with
    | some e =>
      simp only [PollTranscript, hnr, Option.some.injEq, Prod.mk.injEq] at hp
      rw [← hp.1]
    | none =>
      simp only [PollTranscript, hnr] at hp
      exact pollLoop_no_partial env _ _ _ _ _ _ _ _ _ hp h

/-- Witness for C8: a transport failure on upload produces an error and
the empty string. -/
theorem C8_witness :
    (UploadLocalFile failUploadEnv).2.isSome = true ∧
    (UploadLocalFile failUploadEnv).1 = "" :=
  ⟨rfl, C8_no_partial_results.1 failUploadEnv rfl⟩

end AssemblyAI
